/-
Verification of the emotion-fusion and model-lifecycle subsystem of the
mentor voice pipeline.

Shallow embedding of:
  scripts/emotion/fusion.py          (EmotionFusion)
  scripts/emotion/prompt_augmenter.py (PromptAugmenter)
  scripts/voice/model_manager.py     (ModelManager)
  scripts/voice_inference.py         (VoiceInferencePipeline.process_turn)

Python floats are modelled as exact rationals; the cosine-similarity
computation (which takes a square root) is modelled over the reals.
Python dicts with string keys are modelled as association lists in
insertion order (Python dicts preserve insertion order, and an update of
an existing key keeps its position).
-/

import Mathlib

namespace Mentor

/-- The fixed category list `EmotionFusion.EMOTION_CATEGORIES`
(fusion.py lines 10-19), in source order. -/
def EMOTION_CATEGORIES : List String :=
  [ "anger", "disgust", "fear", "joy", "neutral", "sadness", "surprise", "confusion" ]

/-- One detector output: the `{emotion, confidence, scores}` dict consumed by
`EmotionFusion.fuse`.  The `scores` dict is an association list in insertion
order; keys are arbitrary strings, values arbitrary rationals. -/
structure EmotionSample where
  emotion : String
  confidence : ℚ
  scores : List (String × ℚ)

/-- The configuration state of an `EmotionFusion` instance after `__init__`
(fusion.py lines 28-33): `speech_weight`, `text_weight`, `conflict_resolution`. -/
structure FusionConfig where
  speech_weight : ℚ
  text_weight : ℚ
  conflict_strategy : String

/-- Assignment `d[k] = v` on a Python dict `d` known to contain key `k`
(the guarded assignment in `_normalize_scores`): the value at `k` is
replaced in place, all other entries and the key order are unchanged.
When `k` is absent this is the identity, matching the `if emotion_lower in
normalized` guard. -/
def setIfPresent (l : List (String × ℚ)) (k : String) (v : ℚ) : List (String × ℚ) :=
  l.map (fun p => if p.1 = k then (p.1, v) else p)

/-- Dict lookup `d.get(k, dflt)` on an association list. -/
def lookupD (l : List (String × ℚ)) (k : String) (dflt : ℚ) : ℚ :=
  match l.find? (fun p => p.1 == k) with
  | some p => p.2
  | none => dflt

/-- Python `EmotionFusion._normalize_scores` (fusion.py lines 88-95): start from a
zero-filled dict over `EMOTION_CATEGORIES`, then for each input entry whose
lower-cased key is a known category, overwrite that category's value. -/
def normalize_scores (scores : List (String × ℚ)) : List (String × ℚ) :=
  scores.foldl (fun acc p => setIfPresent acc p.1.toLower p.2)
    (EMOTION_CATEGORIES.map (fun cat => (cat, 0)))

/-- Python `EmotionFusion._speech_dominant_fusion` (fusion.py lines 124-147).
`alpha = 0.8` when `speech.confidence > 0.7`, else the configured
`speech_weight`; then a per-category convex combination. -/
def speech_dominant_fusion (cfg : FusionConfig) (speech_emotion _text_emotion : EmotionSample)
    (speech_scores text_scores : List (String × ℚ)) : List (String × ℚ) :=
  let alpha := if speech_emotion.confidence > 0.7 then (0.8 : ℚ) else cfg.speech_weight
  EMOTION_CATEGORIES.map (fun cat =>
    (cat, alpha * lookupD speech_scores cat 0 + (1 - alpha) * lookupD text_scores cat 0))

/-- Python `EmotionFusion._averaging_fusion` (fusion.py lines 149-161). -/
def averaging_fusion (cfg : FusionConfig)
    (speech_scores text_scores : List (String × ℚ)) : List (String × ℚ) :=
  EMOTION_CATEGORIES.map (fun cat =>
    (cat, cfg.speech_weight * lookupD speech_scores cat 0 +
      cfg.text_weight * lookupD text_scores cat 0))

/-- Python `EmotionFusion._consensus_fusion` (fusion.py lines 163-181): average when
the lower-cased top labels agree, otherwise a dict that is 0 everywhere and
1.0 at `"neutral"`. -/
def consensus_fusion (cfg : FusionConfig) (speech_emotion text_emotion : EmotionSample)
    (speech_scores text_scores : List (String × ℚ)) : List (String × ℚ) :=
  if speech_emotion.emotion.toLower == text_emotion.emotion.toLower then
    averaging_fusion cfg speech_scores text_scores
  else
    setIfPresent (EMOTION_CATEGORIES.map (fun cat => (cat, 0))) "neutral" 1

/-- Stable insertion of one entry into a list already sorted by value in
non-increasing order: walk past strictly greater values, insert before the
first value `≤` the new one (so an earlier-listed entry stays ahead of
later-listed entries of equal value). -/
def insertDesc (p : String × ℚ) : List (String × ℚ) → List (String × ℚ)
  | [] => [p]
  | q :: t => if q.2 > p.2 then q :: insertDesc p t else p :: q :: t

/-- Python's `sorted(items, key=lambda x: x[1], reverse=True)`: a stable sort
by value in non-increasing order, realised as a stable insertion sort. -/
def sortDesc : List (String × ℚ) → List (String × ℚ)
  | [] => []
  | p :: t => insertDesc p (sortDesc t)

/-- Python `EmotionFusion._calculate_agreement` (fusion.py lines 97-122):
`0.6 * cosine + 0.4 * same_emotion` clipped to `[0, 1]`, where the cosine of
the two 8-component score vectors is 0 unless both Euclidean norms are
positive.  The callers always pass normalized dicts containing every
category, so the direct indexing `scores[cat]` is modelled by `lookupD`. -/
noncomputable def calculate_agreement (speech_emo text_emo : String)
    (speech_scores text_scores : List (String × ℚ)) : ℝ :=
  let speech_vec : List ℚ := EMOTION_CATEGORIES.map (fun cat => lookupD speech_scores cat 0)
  let text_vec : List ℚ := EMOTION_CATEGORIES.map (fun cat => lookupD text_scores cat 0)
  let norm_speech : ℝ := Real.sqrt (((speech_vec.map (fun x => x * x)).sum : ℚ) : ℝ)
  let norm_text : ℝ := Real.sqrt (((text_vec.map (fun x => x * x)).sum : ℚ) : ℝ)
  let dot : ℚ := ((speech_vec.zip text_vec).map (fun p => p.1 * p.2)).sum
  let cosine : ℝ :=
    if norm_speech > 0 ∧ norm_text > 0 then (dot : ℝ) / (norm_speech * norm_text) else 0
  let same_emotion : ℝ := if speech_emo.toLower == text_emo.toLower then 1 else 0
  let agreement : ℝ := 0.6 * cosine + 0.4 * same_emotion
  max 0 (min agreement 1)

/-- The dict returned by `EmotionFusion.fuse` (fusion.py lines 79-86). -/
structure FusedEmotion where
  primary_emotion : String
  confidence : ℚ
  secondary_emotion : Option String
  combined_scores : List (String × ℚ)
  source_agreement : ℝ
  fusion_method : String

/-- The `combined` dict computed inside `EmotionFusion.fuse`
(fusion.py lines 50-72): normalize both score dicts, then dispatch on
`conflict_resolution` — `"speech_dominant"`, `"averaging"`, and consensus
for every other value (the bare `else`). -/
def fuseCombined (cfg : FusionConfig) (speech_emotion text_emotion : EmotionSample) :
    List (String × ℚ) :=
  let speech_scores := normalize_scores speech_emotion.scores
  let text_scores := normalize_scores text_emotion.scores
  if cfg.conflict_strategy == "speech_dominant" then
    speech_dominant_fusion cfg speech_emotion text_emotion speech_scores text_scores
  else if cfg.conflict_strategy == "averaging" then
    averaging_fusion cfg speech_scores text_scores
  else
    consensus_fusion cfg speech_emotion text_emotion speech_scores text_scores

/-- Python `EmotionFusion.fuse` (fusion.py lines 35-86).  The `sorted(...)[0]`
primary and the guarded `sorted(...)[1]` secondary are read off the stable
descending sort of the combined dict; `combined` always has the 8 fixed
categories, so `headD` never takes its fallback. -/
noncomputable def fuse (cfg : FusionConfig) (speech_emotion text_emotion : EmotionSample) :
    FusedEmotion :=
  let speech_scores := normalize_scores speech_emotion.scores
  let text_scores := normalize_scores text_emotion.scores
  let agreement := calculate_agreement speech_emotion.emotion text_emotion.emotion
    speech_scores text_scores
  let combined := fuseCombined cfg speech_emotion text_emotion
  let sorted_emotions := sortDesc combined
  let primary := sorted_emotions.headD ("", 0)
  let secondary : Option (String × ℚ) :=
    match sorted_emotions with
    | _ :: s :: _ => if s.2 > 0.2 then some s else none
    | _ => none
  { primary_emotion := primary.1
    confidence := primary.2
    secondary_emotion := secondary.map (fun p => p.1)
    combined_scores := combined
    source_agreement := agreement
    fusion_method := cfg.conflict_strategy }

/-! ### Specification-side definitions -/

/-- Specification reading of "the arg-max key of `combined_scores`; on ties,
the category that comes first in the fixed category-set ordering wins": the
first entry of the list whose value is greater than or equal to every value in
the list. -/
def firstArgmax (l : List (String × ℚ)) : Option (String × ℚ) :=
  l.find? (fun p => l.all (fun q => q.2 ≤ p.2))

/-! ### Lemmas about the stable descending sort -/

theorem insertDesc_ne_nil (p : String × ℚ) (l : List (String × ℚ)) :
    insertDesc p l ≠ [] := by
  cases l with
  | nil => simp [insertDesc]
  | cons q t =>
    unfold insertDesc
    split <;> simp

theorem sortDesc_ne_nil (l : List (String × ℚ)) (h : l ≠ []) : sortDesc l ≠ [] := by
  cases l with
  | nil => exact absurd rfl h
  | cons p t =>
    show insertDesc p (sortDesc t) ≠ []
    exact insertDesc_ne_nil p (sortDesc t)

theorem find?_of_imp {α : Type} (P Q : α → Bool) :
    ∀ (l : List α) (x : α), l.find? P = some x → Q x = true →
      (∀ e, e ∈ l → Q e = true → P e = true) → l.find? Q = some x := by
  intro l
  induction l with
  | nil => intro x h _ _; simp [List.find?] at h
  | cons e t ih =>
    intro x hfind hQx himp
    by_cases hPe : P e = true
    · rw [List.find?_cons_of_pos _ hPe] at hfind
      cases hfind
      rw [List.find?_cons_of_pos _ hQx]
    · rw [List.find?_cons_of_neg _ (by simpa using hPe)] at hfind
      have hQe : ¬ (Q e = true) := fun hq => hPe (himp e (by simp) hq)
      rw [List.find?_cons_of_neg _ (by simpa using hQe)]
      exact ih x hfind hQx (fun e' he' => himp e' (by simp [he']))

/-- The head of the stable descending sort is the first entry of the original
list attaining the maximum value. -/
theorem firstArgmax_eq_sortDesc_head (l : List (String × ℚ)) (hl : l ≠ []) :
    firstArgmax l = some ((sortDesc l).headD ("", 0)) := by
  induction l with
  | nil => exact absurd rfl hl
  | cons p t ih =>
    cases t with
    | nil => simp [firstArgmax, sortDesc, insertDesc, List.find?]
    | cons q t' =>
      have ih' := ih (by simp)
      obtain ⟨m, rest, hsort⟩ : ∃ m rest, sortDesc (q :: t') = m :: rest := by
        cases hs : sortDesc (q :: t') with
        | nil => exact absurd hs (sortDesc_ne_nil _ (by simp))
        | cons m rest => exact ⟨m, rest, rfl⟩
      rw [hsort] at ih'
      simp only [List.headD_cons] at ih'
      have hub : ∀ r ∈ q :: t', r.2 ≤ m.2 := by
        have := List.find?_some ih'
        simpa [List.all_eq_true] using this
      have hmem : m ∈ q :: t' := List.mem_of_find?_eq_some ih'
      have hsort2 : sortDesc (p :: q :: t') = insertDesc p (m :: rest) := by
        show insertDesc p (sortDesc (q :: t')) = insertDesc p (m :: rest)
        rw [hsort]
      by_cases hc : m.2 > p.2
      · -- the maximum of the tail strictly beats `p`: the head stays `m`
        have hhead : (sortDesc (p :: q :: t')).headD ("", 0) = m := by
          rw [hsort2]
          unfold insertDesc
          rw [if_pos hc]
          simp
        rw [hhead]
        have hPp : ¬ (((p :: q :: t').all (fun r => decide (r.2 ≤ p.2))) = true) := by
          simp only [List.all_eq_true]
          intro hall
          exact absurd (hall m (by simp [hmem])) (by simpa using hc)
        unfold firstArgmax
        rw [List.find?_cons_of_neg _ (by simpa using hPp)]
        refine find?_of_imp _ _ (q :: t') m ih' ?_ ?_
        · simp only [List.all_eq_true]
          intro r hr
          rcases List.mem_cons.mp hr with h | h
          · subst h; simpa using le_of_lt hc
          · simpa using hub r h
        · intro e _ hQ
          simp only [List.all_eq_true] at hQ ⊢
          intro r hr
          exact hQ r (by simp [hr])
      · -- `p` is at least the running maximum: `p` wins, first in list order
        have hple : m.2 ≤ p.2 := le_of_not_lt hc
        have hhead : (sortDesc (p :: q :: t')).headD ("", 0) = p := by
          rw [hsort2]
          unfold insertDesc
          rw [if_neg hc]
          simp
        rw [hhead]
        unfold firstArgmax
        have hPp : ((p :: q :: t').all (fun r => decide (r.2 ≤ p.2))) = true := by
          simp only [List.all_eq_true]
          intro r hr
          rcases List.mem_cons.mp hr with h | h
          · subst h; simp
          · exact by simpa using le_trans (hub r h) hple
        exact List.find?_cons_of_pos _ hPp

/-! ### Key-set lemmas: every fusion path produces a dict whose keys are
exactly the eight fixed categories, in order -/

theorem setIfPresent_keys (l : List (String × ℚ)) (k : String) (v : ℚ) :
    (setIfPresent l k v).map Prod.fst = l.map Prod.fst := by
  induction l with
  | nil => rfl
  | cons p t ih =>
    simp only [setIfPresent, List.map_cons] at ih ⊢
    rw [ih]
    split <;> simp

theorem map_pair_keys (f : String → ℚ) (L : List String) :
    (L.map (fun cat => (cat, f cat))).map Prod.fst = L := by
  induction L with
  | nil => rfl
  | cons c t ih => simp [ih]

theorem normalize_scores_keys (scores : List (String × ℚ)) :
    (normalize_scores scores).map Prod.fst = EMOTION_CATEGORIES := by
  unfold normalize_scores
  have h : ∀ (s : List (String × ℚ)) (acc : List (String × ℚ)),
      (s.foldl (fun acc p => setIfPresent acc p.1.toLower p.2) acc).map Prod.fst
        = acc.map Prod.fst := by
    intro s
    induction s with
    | nil => intro acc; rfl
    | cons p t ih =>
      intro acc
      simp only [List.foldl_cons]
      rw [ih, setIfPresent_keys]
  rw [h, map_pair_keys]

theorem fuseCombined_keys (cfg : FusionConfig) (sp tx : EmotionSample) :
    (fuseCombined cfg sp tx).map Prod.fst = EMOTION_CATEGORIES := by
  unfold fuseCombined
  split
  · exact map_pair_keys _ _
  · split
    · exact map_pair_keys _ _
    · unfold consensus_fusion
      split
      · exact map_pair_keys _ _
      · rw [setIfPresent_keys, map_pair_keys]

theorem fuseCombined_ne_nil (cfg : FusionConfig) (sp tx : EmotionSample) :
    fuseCombined cfg sp tx ≠ [] := by
  intro h
  have := fuseCombined_keys cfg sp tx
  rw [h] at this
  exact absurd this.symm (by simp [EMOTION_CATEGORIES])

/-- C1: for every pair of `EmotionSample` inputs (and any configuration),
`fuse()` returns a `FusedEmotion` whose `combined_scores` has exactly the
eight fixed categories as keys, in the fixed order (zero-filled where absent
by normalization), and whose `primary_emotion`/`confidence` pair is the
first entry of `combined_scores` attaining the maximum value — the arg-max
with ties resolved in favour of the category that comes first in the fixed
ordering. -/
theorem fuse_combined_keys_and_primary_argmax
    (cfg : FusionConfig) (sp tx : EmotionSample) :
    (fuse cfg sp tx).combined_scores.map Prod.fst = EMOTION_CATEGORIES ∧
    firstArgmax (fuse cfg sp tx).combined_scores =
      some ((fuse cfg sp tx).primary_emotion, (fuse cfg sp tx).confidence) := by
  have hcomb : (fuse cfg sp tx).combined_scores = fuseCombined cfg sp tx := rfl
  have hprim : (fuse cfg sp tx).primary_emotion
      = ((sortDesc (fuseCombined cfg sp tx)).headD ("", 0)).1 := rfl
  have hconf : (fuse cfg sp tx).confidence
      = ((sortDesc (fuseCombined cfg sp tx)).headD ("", 0)).2 := rfl
  refine ⟨by rw [hcomb]; exact fuseCombined_keys cfg sp tx, ?_⟩
  rw [hcomb, hprim, hconf]
  rw [firstArgmax_eq_sortDesc_head _ (fuseCombined_ne_nil cfg sp tx)]

/-- C3: under the `consensus` policy, when the two top labels differ
case-insensitively the combined scores collapse to the dict that is 1.0 at
`neutral` and 0.0 everywhere else, regardless of the per-category scores;
when they match, the combined scores equal what the `averaging` policy
produces on the same inputs. -/
theorem consensus_policy_collapse (sw tw : ℚ) (sp tx : EmotionSample) :
    (fuse ⟨sw, tw, "consensus"⟩ sp tx).combined_scores =
      if sp.emotion.toLower = tx.emotion.toLower
      then (fuse ⟨sw, tw, "averaging"⟩ sp tx).combined_scores
      else [("anger", 0), ("disgust", 0), ("fear", 0), ("joy", 0),
        ("neutral", 1), ("sadness", 0), ("surprise", 0), ("confusion", 0)] := by
  have h : (fuse ⟨sw, tw, "consensus"⟩ sp tx).combined_scores
      = consensus_fusion ⟨sw, tw, "consensus"⟩ sp tx
          (normalize_scores sp.scores) (normalize_scores tx.scores) := rfl
  rw [h]
  unfold consensus_fusion
  by_cases he : sp.emotion.toLower = tx.emotion.toLower
  · rw [if_pos (by simpa using he), if_pos he]
    rfl
  · rw [if_neg (by simpa using he), if_neg he]
    show setIfPresent (EMOTION_CATEGORIES.map (fun cat => (cat, 0))) "neutral" 1 = _
    with_unfolding_all decide

/-- C4: under the `speech_dominant` policy, each combined score is
`alpha * speech[c] + (1 - alpha) * text[c]` over the normalized score
vectors, with `alpha = 0.8` when the speech confidence is strictly above
0.7 and `alpha = speech_weight` otherwise; and on the concrete pair
speech = (anger, 0.85) vs text = (neutral, 0.9), each peaked at its own
label, the fused primary emotion is `anger`. -/
theorem speech_dominant_weighting (sw tw : ℚ) (sp tx : EmotionSample) :
    ((fuse ⟨sw, tw, "speech_dominant"⟩ sp tx).combined_scores =
      EMOTION_CATEGORIES.map (fun cat =>
        (cat,
          (if sp.confidence > 0.7 then (0.8 : ℚ) else sw)
              * lookupD (normalize_scores sp.scores) cat 0
            + (1 - (if sp.confidence > 0.7 then (0.8 : ℚ) else sw))
              * lookupD (normalize_scores tx.scores) cat 0))) ∧
    (fuse ⟨0.6, 0.4, "speech_dominant"⟩
        ⟨"anger", 0.85, [("anger", 0.85)]⟩
        ⟨"neutral", 0.9, [("neutral", 0.9)]⟩).primary_emotion = "anger" := by
  constructor
  · rfl
  · with_unfolding_all decide

/-- C10: any configured `conflict_resolution` other than the exact strings
`"speech_dominant"` and `"averaging"` silently gets the consensus policy
(the bare `else` branch raises nothing), while the returned `fusion_method`
reports the configured string verbatim. -/
theorem fuse_unknown_policy_defaults_to_consensus
    (cfg : FusionConfig) (sp tx : EmotionSample)
    (h1 : cfg.conflict_strategy ≠ "speech_dominant")
    (h2 : cfg.conflict_strategy ≠ "averaging") :
    (fuse cfg sp tx).combined_scores =
      consensus_fusion cfg sp tx
        (normalize_scores sp.scores) (normalize_scores tx.scores) ∧
    (fuse cfg sp tx).fusion_method = cfg.conflict_strategy := by
  refine ⟨?_, rfl⟩
  show fuseCombined cfg sp tx = _
  unfold fuseCombined
  rw [if_neg (by simpa using h1), if_neg (by simpa using h2)]

/-- A configuration with a misspelled conflict-resolution policy, for the
witness below. -/
def cfgTypo : FusionConfig := ⟨0.6, 0.4, "majority"⟩

/-- Witness sample: high-confidence anger speech input. -/
def spW : EmotionSample := ⟨"anger", 0.85, [("anger", 0.85)]⟩

/-- Witness sample: high-confidence neutral text input. -/
def txW : EmotionSample := ⟨"neutral", 0.9, [("neutral", 0.9)]⟩

/-- Witness for C10 at the concrete unknown policy string `"majority"`. -/
theorem fuse_unknown_policy_witness :
    ("majority" : String) ≠ "speech_dominant" ∧
    ("majority" : String) ≠ "averaging" ∧
    (fuse cfgTypo spW txW).combined_scores =
      consensus_fusion cfgTypo spW txW
        (normalize_scores spW.scores) (normalize_scores txW.scores) ∧
    (fuse cfgTypo spW txW).fusion_method = "majority" := by
  have h := fuse_unknown_policy_defaults_to_consensus cfgTypo spW txW
    (by decide) (by decide)
  exact ⟨by decide, by decide, h.1, h.2⟩

/-! ### C6: the source-agreement computation -/

/-- Specification-side: the 8-component score vector of a score dict as an
element of Euclidean space, components in the fixed category order. -/
noncomputable def scoreVec (scores : List (String × ℚ)) : EuclideanSpace ℝ (Fin 8) :=
  (WithLp.equiv 2 (Fin 8 → ℝ)).symm
    ![ ((lookupD scores "anger" 0 : ℚ) : ℝ), ((lookupD scores "disgust" 0 : ℚ) : ℝ),
       ((lookupD scores "fear" 0 : ℚ) : ℝ), ((lookupD scores "joy" 0 : ℚ) : ℝ),
       ((lookupD scores "neutral" 0 : ℚ) : ℝ), ((lookupD scores "sadness" 0 : ℚ) : ℝ),
       ((lookupD scores "surprise" 0 : ℚ) : ℝ), ((lookupD scores "confusion" 0 : ℚ) : ℝ) ]

/-- Specification-side cosine similarity: the inner product divided by the
product of the Euclidean norms, and 0 whenever either vector has zero norm. -/
noncomputable def cosineSimilarity (v w : EuclideanSpace ℝ (Fin 8)) : ℝ :=
  if ‖v‖ = 0 ∨ ‖w‖ = 0 then 0 else (inner v w : ℝ) / (‖v‖ * ‖w‖)

/-- Specification-side source agreement:
`0.6 * cosine_similarity + 0.4 * (1 if labels match case-insensitively else 0)`,
clipped to the interval `[0, 1]`. -/
noncomputable def sourceAgreementSpec (sp tx : EmotionSample) : ℝ :=
  min (max (0.6 * cosineSimilarity (scoreVec (normalize_scores sp.scores))
      (scoreVec (normalize_scores tx.scores))
    + 0.4 * (if sp.emotion.toLower = tx.emotion.toLower then (1 : ℝ) else 0)) 0) 1

theorem sqrt_listNormSq (s : List (String × ℚ)) :
    Real.sqrt (((((EMOTION_CATEGORIES.map (fun cat => lookupD s cat 0)).map
        (fun x => x * x)).sum : ℚ) : ℝ))
      = ‖scoreVec s‖ := by
  rw [EuclideanSpace.norm_eq]
  congr 1
  have h : ∀ i, ‖scoreVec s i‖ ^ 2 = scoreVec s i ^ 2 := fun i => by
    rw [Real.norm_eq_abs, sq_abs]
  rw [Finset.sum_congr rfl (fun i _ => h i)]
  simp [scoreVec, EMOTION_CATEGORIES, Fin.sum_univ_succ, Matrix.cons_val_succ]
  ring

theorem listDot_eq_inner (s t : List (String × ℚ)) :
    (((((EMOTION_CATEGORIES.map (fun cat => lookupD s cat 0)).zip
        (EMOTION_CATEGORIES.map (fun cat => lookupD t cat 0))).map
          (fun p => p.1 * p.2)).sum : ℚ) : ℝ)
      = (inner (scoreVec s) (scoreVec t) : ℝ) := by
  rw [PiLp.inner_apply]
  have h : ∀ i, (inner (scoreVec s i) (scoreVec t i) : ℝ)
      = scoreVec s i * scoreVec t i := fun i => by
    rw [RCLike.inner_apply, starRingEnd_apply, star_trivial]
  rw [Finset.sum_congr rfl (fun i _ => h i)]
  simp [scoreVec, EMOTION_CATEGORIES, Fin.sum_univ_succ, Matrix.cons_val_succ]

theorem clip_comm (a : ℝ) : max 0 (min a 1) = min (max a 0) 1 := by
  rw [max_min_distrib_left, max_comm (0 : ℝ) a, max_eq_right (zero_le_one' ℝ)]

theorem calculate_agreement_eq (e₁ e₂ : String) (s t : List (String × ℚ)) :
    calculate_agreement e₁ e₂ s t =
      min (max (0.6 * cosineSimilarity (scoreVec s) (scoreVec t)
        + 0.4 * (if e₁.toLower = e₂.toLower then (1 : ℝ) else 0)) 0) 1 := by
  simp only [calculate_agreement]
  rw [sqrt_listNormSq s, sqrt_listNormSq t, listDot_eq_inner s t, clip_comm]
  have hcos : (if ‖scoreVec s‖ > 0 ∧ ‖scoreVec t‖ > 0
        then (inner (scoreVec s) (scoreVec t) : ℝ) / (‖scoreVec s‖ * ‖scoreVec t‖)
        else 0)
      = cosineSimilarity (scoreVec s) (scoreVec t) := by
    rw [cosineSimilarity]
    by_cases hz : ‖scoreVec s‖ = 0 ∨ ‖scoreVec t‖ = 0
    · rw [if_pos hz, if_neg]
      intro hlt
      rcases hz with h | h
      · exact absurd h (ne_of_gt hlt.1)
      · exact absurd h (ne_of_gt hlt.2)
    · rw [if_neg hz]
      push_neg at hz
      rw [if_pos ⟨(norm_nonneg _).lt_of_ne (Ne.symm hz.1),
        (norm_nonneg _).lt_of_ne (Ne.symm hz.2)⟩]
  have hmatch : (if (e₁.toLower == e₂.toLower) = true then (1 : ℝ) else 0)
      = (if e₁.toLower = e₂.toLower then (1 : ℝ) else 0) := by
    by_cases he : e₁.toLower = e₂.toLower
    · rw [if_pos (by simpa using he), if_pos he]
    · rw [if_neg (by simpa using he), if_neg he]
  rw [hcos, hmatch]

/-- C6: for every pair of `EmotionSample` inputs, the `source_agreement`
returned by `fuse()` equals `0.6 * cosine_similarity(speech_vector,
text_vector) + 0.4 * (1 if the top labels match case-insensitively else 0)`,
clipped to `[0, 1]`, where the cosine term is 0 whenever either normalized
score vector has zero Euclidean norm. -/
theorem fuse_source_agreement (cfg : FusionConfig) (sp tx : EmotionSample) :
    (fuse cfg sp tx).source_agreement = sourceAgreementSpec sp tx := by
  have h : (fuse cfg sp tx).source_agreement
      = calculate_agreement sp.emotion tx.emotion
          (normalize_scores sp.scores) (normalize_scores tx.scores) := rfl
  rw [h, calculate_agreement_eq]
  rfl

/-! ### ModelManager (scripts/voice/model_manager.py) -/

/-- Allocation and release events of the underlying model resources: one
`alloc` event per construction of a model object inside a `load_*` method,
one `release` event per `.unload()` call inside an `unload_*` method. -/
inductive ModelEvent where
  | allocStt | releaseStt
  | allocSpeechEmotion | releaseSpeechEmotion
  | allocTextEmotion | releaseTextEmotion
  | allocTts | releaseTts
  deriving DecidableEq

/-- The mutable fields set up by `ModelManager.__init__` (model_manager.py
lines 22-33).  Handles are opaque, so a loaded slot is `some ()`.  The two
tokenizer fields for text emotion and TTS are initialised to `None` and, as
in the source, never assigned anywhere. -/
structure ModelManagerState where
  llm_model : Option Unit
  llm_tokenizer : Option Unit
  vad_model : Option Unit
  stt_pipe : Option Unit
  speech_emotion_model : Option Unit
  text_emotion_model : Option Unit
  text_emotion_tokenizer : Option Unit
  tts_model : Option Unit
  tts_tokenizer : Option Unit
  deriving DecidableEq

/-- The state after `ModelManager.__init__`: every handle is `None`. -/
def initModelManager : ModelManagerState :=
  ⟨none, none, none, none, none, none, none, none, none⟩

/-- Python `ModelManager.load_stt_pipeline` (lines 75-84): allocate and store a
handle only when `stt_pipe is None`. -/
def load_stt_pipeline (s : ModelManagerState) : ModelManagerState × List ModelEvent :=
  match s.stt_pipe with
  | some _ => (s, [])
  | none => ({ s with stt_pipe := some () }, [ModelEvent.allocStt])

/-- Python `ModelManager.unload_stt_pipeline` (lines 86-93): release and clear the
handle only when `stt_pipe is not None`. -/
def unload_stt_pipeline (s : ModelManagerState) : ModelManagerState × List ModelEvent :=
  match s.stt_pipe with
  | some _ => ({ s with stt_pipe := none }, [ModelEvent.releaseStt])
  | none => (s, [])

/-- Python `ModelManager.load_speech_emotion` (lines 95-107). -/
def load_speech_emotion (s : ModelManagerState) : ModelManagerState × List ModelEvent :=
  match s.speech_emotion_model with
  | some _ => (s, [])
  | none => ({ s with speech_emotion_model := some () }, [ModelEvent.allocSpeechEmotion])

/-- Python `ModelManager.unload_speech_emotion` (lines 109-116). -/
def unload_speech_emotion (s : ModelManagerState) : ModelManagerState × List ModelEvent :=
  match s.speech_emotion_model with
  | some _ => ({ s with speech_emotion_model := none }, [ModelEvent.releaseSpeechEmotion])
  | none => (s, [])

/-- Python `ModelManager.load_text_emotion` (lines 118-128). -/
def load_text_emotion (s : ModelManagerState) : ModelManagerState × List ModelEvent :=
  match s.text_emotion_model with
  | some _ => (s, [])
  | none => ({ s with text_emotion_model := some () }, [ModelEvent.allocTextEmotion])

/-- Python `ModelManager.unload_text_emotion` (lines 130-137). -/
def unload_text_emotion (s : ModelManagerState) : ModelManagerState × List ModelEvent :=
  match s.text_emotion_model with
  | some _ => ({ s with text_emotion_model := none }, [ModelEvent.releaseTextEmotion])
  | none => (s, [])

/-- Python `ModelManager.load_tts` (lines 139-149). -/
def load_tts (s : ModelManagerState) : ModelManagerState × List ModelEvent :=
  match s.tts_model with
  | some _ => (s, [])
  | none => ({ s with tts_model := some () }, [ModelEvent.allocTts])

/-- Python `ModelManager.unload_tts` (lines 151-158). -/
def unload_tts (s : ModelManagerState) : ModelManagerState × List ModelEvent :=
  match s.tts_model with
  | some _ => ({ s with tts_model := none }, [ModelEvent.releaseTts])
  | none => (s, [])

/-- C9: for each of the four transient slots, loading twice in a row
allocates the underlying resource exactly once (the second call is a no-op
because the handle is already set), and unloading an unloaded slot is a
no-op (no state change, no release). -/
theorem load_twice_once_unload_noop (s : ModelManagerState) :
    (load_stt_pipeline (load_stt_pipeline s).1 = ((load_stt_pipeline s).1, []) ∧
     (s.stt_pipe = none → (load_stt_pipeline s).2 = [ModelEvent.allocStt]) ∧
     (s.stt_pipe = none → unload_stt_pipeline s = (s, []))) ∧
    (load_speech_emotion (load_speech_emotion s).1 = ((load_speech_emotion s).1, []) ∧
     (s.speech_emotion_model = none →
       (load_speech_emotion s).2 = [ModelEvent.allocSpeechEmotion]) ∧
     (s.speech_emotion_model = none → unload_speech_emotion s = (s, []))) ∧
    (load_text_emotion (load_text_emotion s).1 = ((load_text_emotion s).1, []) ∧
     (s.text_emotion_model = none →
       (load_text_emotion s).2 = [ModelEvent.allocTextEmotion]) ∧
     (s.text_emotion_model = none → unload_text_emotion s = (s, []))) ∧
    (load_tts (load_tts s).1 = ((load_tts s).1, []) ∧
     (s.tts_model = none → (load_tts s).2 = [ModelEvent.allocTts]) ∧
     (s.tts_model = none → unload_tts s = (s, []))) := by
  refine ⟨⟨?_, ?_, ?_⟩, ⟨?_, ?_, ?_⟩, ⟨?_, ?_, ?_⟩, ⟨?_, ?_, ?_⟩⟩ <;>
    first
      | (cases h : s.stt_pipe <;>
          simp [load_stt_pipeline, unload_stt_pipeline, h])
      | (cases h : s.speech_emotion_model <;>
          simp [load_speech_emotion, unload_speech_emotion, h])
      | (cases h : s.text_emotion_model <;>
          simp [load_text_emotion, unload_text_emotion, h])
      | (cases h : s.tts_model <;>
          simp [load_tts, unload_tts, h])

/-- Witness for C9 at the freshly-initialised manager state. -/
theorem load_twice_once_unload_noop_witness :
    (load_stt_pipeline (load_stt_pipeline initModelManager).1
        = ((load_stt_pipeline initModelManager).1, []) ∧
      (load_stt_pipeline initModelManager).2 = [ModelEvent.allocStt] ∧
      unload_stt_pipeline initModelManager = (initModelManager, [])) ∧
    (load_tts (load_tts initModelManager).1 = ((load_tts initModelManager).1, []) ∧
      (load_tts initModelManager).2 = [ModelEvent.allocTts] ∧
      unload_tts initModelManager = (initModelManager, [])) := by
  have h := load_twice_once_unload_noop initModelManager
  exact ⟨⟨h.1.1, h.1.2.1 rfl, h.1.2.2 rfl⟩,
    ⟨h.2.2.2.1, h.2.2.2.2.1 rfl, h.2.2.2.2.2 rfl⟩⟩

/-! ### Normal forms of the manager operations as record updates
(the handle type is `Unit`, so a loaded slot is always `some ()`) -/

theorem load_stt_pipeline_state (s : ModelManagerState) :
    (load_stt_pipeline s).1 = { s with stt_pipe := some () } := by
  obtain ⟨a, b, c, d, e, f, g, h', i⟩ := s
  cases d with
  | none => rfl
  | some u => cases u; rfl

theorem unload_stt_pipeline_state (s : ModelManagerState) :
    (unload_stt_pipeline s).1 = { s with stt_pipe := none } := by
  obtain ⟨a, b, c, d, e, f, g, h', i⟩ := s
  cases d with
  | none => rfl
  | some u => cases u; rfl

theorem load_speech_emotion_state (s : ModelManagerState) :
    (load_speech_emotion s).1 = { s with speech_emotion_model := some () } := by
  obtain ⟨a, b, c, d, e, f, g, h', i⟩ := s
  cases e with
  | none => rfl
  | some u => cases u; rfl

theorem unload_speech_emotion_state (s : ModelManagerState) :
    (unload_speech_emotion s).1 = { s with speech_emotion_model := none } := by
  obtain ⟨a, b, c, d, e, f, g, h', i⟩ := s
  cases e with
  | none => rfl
  | some u => cases u; rfl

theorem load_text_emotion_state (s : ModelManagerState) :
    (load_text_emotion s).1 = { s with text_emotion_model := some () } := by
  obtain ⟨a, b, c, d, e, f, g, h', i⟩ := s
  cases f with
  | none => rfl
  | some u => cases u; rfl

theorem unload_text_emotion_state (s : ModelManagerState) :
    (unload_text_emotion s).1 = { s with text_emotion_model := none } := by
  obtain ⟨a, b, c, d, e, f, g, h', i⟩ := s
  cases f with
  | none => rfl
  | some u => cases u; rfl

theorem load_tts_state (s : ModelManagerState) :
    (load_tts s).1 = { s with tts_model := some () } := by
  obtain ⟨a, b, c, d, e, f, g, h', i⟩ := s
  cases h' with
  | none => rfl
  | some u => cases u; rfl

theorem unload_tts_state (s : ModelManagerState) :
    (unload_tts s).1 = { s with tts_model := none } := by
  obtain ⟨a, b, c, d, e, f, g, h', i⟩ := s
  cases h' with
  | none => rfl
  | some u => cases u; rfl

/-! ### VoiceInferencePipeline.process_turn (scripts/voice_inference.py) -/

/-- Outcome of one external call inside the `try` block of `process_turn`:
either a returned value, or a raised exception (any `Exception` or
`KeyboardInterrupt`), which transfers control straight to the `except`
handlers at the bottom of the method — both of which just return the
default `result`. -/
inductive Res (α : Type) where
  | ok (a : α)
  | exn

/-- The environment of one turn: the outcome of each external-collaborator
call, in the order `process_turn` makes them.  Each call happens at most
once per turn.  Pure in-process steps (fusion, prompt augmentation, message
assembly, printing) cannot raise in this model. -/
structure TurnEnv where
  record_until_silence : Res (List ℚ)
  transcribe : Res String
  detect_speech_emotion : Res EmotionSample
  detect_text_emotion : Res EmotionSample
  generate_response_core : Res String
  synthesize : Res (List ℚ)
  play_audio : Res Unit

/-- The mutable per-session state owned by `VoiceInferencePipeline`:
the model manager plus `conversation_history` (role/content pairs) and
`emotion_history`. -/
structure PipelineState where
  manager : ModelManagerState
  conversation_history : List (String × String)
  emotion_history : List FusedEmotion

/-- The `result` dict of `process_turn` (voice_inference.py lines 87-92):
`user_text`, `emotion` (empty dict modelled as `none`), `response`,
`success`. -/
structure TurnResult where
  user_text : String
  emotion : Option FusedEmotion
  response : String
  success : Bool

/-- Python `VoiceInferencePipeline.process_turn` (voice_inference.py lines 80-227).
State threading is explicit; every early `return result` and both `except`
handlers return the default result unchanged.  The LLM prompt/message
construction feeds only the (environment-abstracted) generation call, so it
does not appear as state. -/
noncomputable def process_turn (cfg : FusionConfig) (env : TurnEnv) (s₀ : PipelineState) :
    PipelineState × TurnResult :=
  let result : TurnResult := { user_text := "", emotion := none, response := "", success := false }
  -- PHASE 1: load stt + speech emotion, record, transcribe, detect tone
  let s₁ := { s₀ with manager := (load_stt_pipeline s₀.manager).1 }
  let s₂ := { s₁ with manager := (load_speech_emotion s₁.manager).1 }
  match env.record_until_silence with
  | Res.exn => (s₂, result)
  | Res.ok audio =>
    if audio.length = 0 then
      -- "No audio detected."
      let s₃ := { s₂ with manager := (unload_stt_pipeline s₂.manager).1 }
      let s₄ := { s₃ with manager := (unload_speech_emotion s₃.manager).1 }
      (s₄, result)
    else
      match env.transcribe with
      | Res.exn => (s₂, result)
      | Res.ok user_text =>
        if user_text = "" then
          -- "Failed to transcribe audio."
          let s₃ := { s₂ with manager := (unload_stt_pipeline s₂.manager).1 }
          let s₄ := { s₃ with manager := (unload_speech_emotion s₃.manager).1 }
          (s₄, result)
        else
          match env.detect_speech_emotion with
          | Res.exn => (s₂, result)
          | Res.ok speech_emo =>
            let s₃ := { s₂ with manager := (unload_stt_pipeline s₂.manager).1 }
            let s₄ := { s₃ with manager := (unload_speech_emotion s₃.manager).1 }
            -- PHASE 2: text emotion
            let s₅ := { s₄ with manager := (load_text_emotion s₄.manager).1 }
            match env.detect_text_emotion with
            | Res.exn => (s₅, result)
            | Res.ok text_emo =>
              let s₆ := { s₅ with manager := (unload_text_emotion s₅.manager).1 }
              -- PHASE 3: fusion (pure)
              let emotion_context := fuse cfg speech_emo text_emo
              -- PHASES 4-5: prompt augmentation and LLM generation
              match env.generate_response_core with
              | Res.exn => (s₆, result)
              | Res.ok response =>
                -- PHASE 6: TTS
                let s₇ := { s₆ with manager := (load_tts s₆.manager).1 }
                match env.synthesize with
                | Res.exn => (s₇, result)
                | Res.ok audio_response =>
                  let s₈ := { s₇ with manager := (unload_tts s₇.manager).1 }
                  if audio_response.length = 0 then
                    -- "Failed to synthesize speech."
                    (s₈, result)
                  else
                    -- PHASE 7: playback
                    match env.play_audio with
                    | Res.exn => (s₈, result)
                    | Res.ok _ =>
                      -- update history, then return the success result
                      let s₉ := { s₈ with conversation_history :=
                        s₈.conversation_history ++
                          [("user", user_text), ("assistant", response)] }
                      let s₁₀ := { s₉ with emotion_history :=
                        s₉.emotion_history ++ [emotion_context] }
                      (s₁₀, ⟨user_text, some emotion_context, response, true⟩)

/-- No transient slot of the manager holds a handle. -/
def transients_clear (m : ModelManagerState) : Prop :=
  m.stt_pipe = none ∧ m.speech_emotion_model = none ∧
    m.text_emotion_model = none ∧ m.tts_model = none

/-- No external call of the turn raises. -/
def no_exn (env : TurnEnv) : Prop :=
  env.record_until_silence ≠ Res.exn ∧ env.transcribe ≠ Res.exn ∧
    env.detect_speech_emotion ≠ Res.exn ∧ env.detect_text_emotion ≠ Res.exn ∧
    env.generate_response_core ≠ Res.exn ∧ env.synthesize ≠ Res.exn ∧
    env.play_audio ≠ Res.exn

/-- The default fusion configuration of `voice_config` examples, used for
the concrete turn evaluations. -/
def cfgMain : FusionConfig := ⟨0.6, 0.4, "speech_dominant"⟩

/-- The pipeline state right after initialization: fresh manager, empty
histories. -/
def initPipeline : PipelineState := ⟨initModelManager, [], []⟩

/-- A turn whose transcription call raises an exception. -/
def envExnTranscribe : TurnEnv :=
  { record_until_silence := Res.ok [1]
    transcribe := Res.exn
    detect_speech_emotion := Res.ok spW
    detect_text_emotion := Res.ok txW
    generate_response_core := Res.ok ""
    synthesize := Res.ok []
    play_audio := Res.ok () }

/-- C2 counterexample: when the transcription call raises, `process_turn`
returns via the `except` handler with the STT pipeline and the speech
emotion model still loaded — the turn does not leave all four transient
slots unloaded. -/
theorem process_turn_exn_leaves_models_loaded :
    (process_turn cfgMain envExnTranscribe initPipeline).1.manager.stt_pipe = some () ∧
    (process_turn cfgMain envExnTranscribe initPipeline).1.manager.speech_emotion_model
      = some () :=
  ⟨rfl, rfl⟩

/-- C2 amended: whenever no external call raises — the turn either succeeds
or aborts through one of the sentinel checks (empty audio, empty transcript,
empty synthesis) — every transient slot is unloaded when `process_turn`
returns, assuming the turn started with all transient slots unloaded. -/
theorem process_turn_unloads_transients (cfg : FusionConfig) (env : TurnEnv)
    (s₀ : PipelineState) (hs : transients_clear s₀.manager) (henv : no_exn env) :
    transients_clear (process_turn cfg env s₀).1.manager := by
  obtain ⟨r, t, dse, dte, g, syn, pl⟩ := env
  obtain ⟨h1, h2, h3, h4, h5, h6, h7⟩ := henv
  obtain ⟨hst, hse, hte, hts⟩ := hs
  cases r with
  | exn => exact absurd rfl h1
  | ok audio =>
    cases t with
    | exn => exact absurd rfl h2
    | ok user_text =>
      cases dse with
      | exn => exact absurd rfl h3
      | ok speech_emo =>
        cases dte with
        | exn => exact absurd rfl h4
        | ok text_emo =>
          cases g with
          | exn => exact absurd rfl h5
          | ok response =>
            cases syn with
            | exn => exact absurd rfl h6
            | ok audio_response =>
              cases pl with
              | exn => exact absurd rfl h7
              | ok _ =>
                simp only [process_turn, load_stt_pipeline_state,
                  load_speech_emotion_state, unload_stt_pipeline_state,
                  unload_speech_emotion_state, load_text_emotion_state,
                  unload_text_emotion_state, load_tts_state, unload_tts_state]
                split_ifs <;> simp [transients_clear, hst, hse, hte, hts]

/-- A fully successful turn environment. -/
def envAllOk : TurnEnv :=
  { record_until_silence := Res.ok [1]
    transcribe := Res.ok "hello"
    detect_speech_emotion := Res.ok spW
    detect_text_emotion := Res.ok txW
    generate_response_core := Res.ok "resp"
    synthesize := Res.ok [1]
    play_audio := Res.ok () }

/-- Witness for the amended C2 at a concrete fully successful turn. -/
theorem process_turn_unloads_transients_witness :
    transients_clear initPipeline.manager ∧ no_exn envAllOk ∧
    transients_clear (process_turn cfgMain envAllOk initPipeline).1.manager := by
  have hs : transients_clear initPipeline.manager := ⟨rfl, rfl, rfl, rfl⟩
  have henv : no_exn envAllOk :=
    ⟨fun hh => Res.noConfusion hh, fun hh => Res.noConfusion hh,
     fun hh => Res.noConfusion hh, fun hh => Res.noConfusion hh,
     fun hh => Res.noConfusion hh, fun hh => Res.noConfusion hh,
     fun hh => Res.noConfusion hh⟩
  exact ⟨hs, henv, process_turn_unloads_transients cfgMain envAllOk initPipeline hs henv⟩

/-- C5: whenever a turn does not fully succeed — any sentinel abort, user
interrupt or exception — both history lists are exactly as they were before
the turn; appends happen only on the fully successful path. -/
theorem process_turn_abort_preserves_history (cfg : FusionConfig) (env : TurnEnv)
    (s₀ : PipelineState)
    (h : (process_turn cfg env s₀).2.success = false) :
    (process_turn cfg env s₀).1.conversation_history = s₀.conversation_history ∧
    (process_turn cfg env s₀).1.emotion_history = s₀.emotion_history := by
  obtain ⟨r, t, dse, dte, g, syn, pl⟩ := env
  cases r <;> cases t <;> cases dse <;> cases dte <;> cases g <;> cases syn <;> cases pl <;>
    (simp only [process_turn] at h ⊢) <;>
    (try split_ifs at h ⊢) <;>
    simp_all

/-- A turn whose recording raises (for example a user interrupt while
listening). -/
def envExnRecord : TurnEnv :=
  { record_until_silence := Res.exn
    transcribe := Res.exn
    detect_speech_emotion := Res.exn
    detect_text_emotion := Res.exn
    generate_response_core := Res.exn
    synthesize := Res.exn
    play_audio := Res.exn }

/-- Witness for C5 at a concrete interrupted turn. -/
theorem process_turn_abort_preserves_history_witness :
    (process_turn cfgMain envExnRecord initPipeline).2.success = false ∧
    (process_turn cfgMain envExnRecord initPipeline).1.conversation_history = [] ∧
    (process_turn cfgMain envExnRecord initPipeline).1.emotion_history = [] := by
  have h : (process_turn cfgMain envExnRecord initPipeline).2.success = false := rfl
  have h2 := process_turn_abort_preserves_history cfgMain envExnRecord initPipeline h
  exact ⟨h, h2.1, h2.2⟩

/-! ### PromptAugmenter (scripts/emotion/prompt_augmenter.py) -/

/-- Python's `str.strip()`: drop leading and trailing whitespace. -/
def pyStrip (s : String) : String :=
  ⟨((s.data.dropWhile Char.isWhitespace).reverse.dropWhile Char.isWhitespace).reverse⟩

/-- One per-emotion entry of the `emotions` table; either key may be absent
(`dict.get` with a default is used at every read). -/
structure EmotionEntry where
  prompt_addition : Option String
  tts_description : Option String

/-- A parsed `emotion_prompts.yaml` mapping, as read by the augmenter: the
`emotions` table and the `thresholds` table.  Other top-level keys (such as
the `fusion` block of the built-in defaults) are never read by the
augmenter and are not modelled. -/
structure EmotionConfigs where
  emotions : List (String × EmotionEntry)
  thresholds : List (String × ℚ)

/-- Entry lookup `emotions_config.get(emotion, {})` followed by field reads:
`none` stands for the missing-key default `{}`. -/
def lookupEntry (l : List (String × EmotionEntry)) (k : String) : Option EmotionEntry :=
  (l.find? (fun p => p.1 == k)).map (fun p => p.2)

/-- Python `PromptAugmenter._get_default_configs` (prompt_augmenter.py lines
108-151): the built-in fallback table. -/
def default_configs : EmotionConfigs :=
  { emotions :=
      [ ("anger", ⟨some ("The user is expressing anger or frustration. " ++
          "Acknowledge their frustration directly without dismissing it."),
          some "A calm, steady voice that is grounding"⟩),
        ("sadness", ⟨some ("The user is experiencing sadness. " ++
          "Show genuine understanding of their pain. Be gentle."),
          some "A warm, gentle voice with compassion"⟩),
        ("fear", ⟨some ("The user is expressing fear or anxiety. " ++
          "Ground them in reality and help them identify what they can control."),
          some "A calm, reassuring voice that is stable"⟩),
        ("joy", ⟨some ("The user seems happy or excited. " ++
          "Engage warmly while deepening their reflection."),
          some "A warm, engaged voice with enthusiasm"⟩),
        ("neutral", ⟨some "",
          some "A calm, thoughtful voice speaks clearly"⟩) ],
    thresholds := [("high_confidence", 0.7), ("low_confidence", 0.3)] }

/-- What `open` plus `yaml.safe_load` can produce inside
`_load_emotion_config`: the file is missing (`FileNotFoundError`), reading
or parsing raises some other exception, or parsing succeeds — in which case
the value may be a proper mapping, or `None`/a non-mapping (for example for
an empty file), modelled as `parsed none`. -/
inductive ConfigLoadOutcome where
  | fileNotFound
  | raised
  | parsed (v : Option EmotionConfigs)

/-- Python `PromptAugmenter._load_emotion_config` (lines 21-31): both `except`
arms fall back to the built-in defaults; a successful parse is stored
verbatim, even when it is `None`. -/
def load_emotion_config : ConfigLoadOutcome → Option EmotionConfigs
  | ConfigLoadOutcome.fileNotFound => some default_configs
  | ConfigLoadOutcome.raised => some default_configs
  | ConfigLoadOutcome.parsed v => v

/-- Python `PromptAugmenter.augment_system_prompt` (lines 33-77), as a function of
the stored `emotion_configs`.  When the stored value is `None`, the very
first attribute access `self.emotion_configs.get("thresholds", {})` raises
`AttributeError` (before the confidence check), modelled as `Except.error`.
The `high_confidence` threshold is read and then never used, as in the
source. -/
def augment_system_prompt (emotion_configs : Option EmotionConfigs)
    (base_prompt : String) (emotion_context : FusedEmotion) : Except String String :=
  match emotion_configs with
  | none => Except.error "AttributeError"
  | some cfgs =>
    let confidence := emotion_context.confidence
    let _high_conf_threshold := lookupD cfgs.thresholds "high_confidence" 0.7
    if confidence < 0.5 then Except.ok base_prompt
    else
      let emotion := emotion_context.primary_emotion
      let addition :=
        match lookupEntry cfgs.emotions emotion with
        | some entry => entry.prompt_addition.getD ""
        | none => ""
      if addition = "" ∨ (pyStrip addition).length = 0 then Except.ok base_prompt
      else
        Except.ok (base_prompt ++ "\n\n---\n\nEMOTION CONTEXT:\n" ++ addition ++ "\n\n---\n")

/-- Python `PromptAugmenter.get_voice_description` (lines 79-106), as a function of
the stored `emotion_configs`; on a stored `None` the first attribute access
raises. -/
def get_voice_description (emotion_configs : Option EmotionConfigs)
    (emotion_context : FusedEmotion) : Except String String :=
  match emotion_configs with
  | none => Except.error "AttributeError"
  | some cfgs =>
    let confidence := emotion_context.confidence
    let emotion :=
      if confidence < 0.5 then "neutral" else emotion_context.primary_emotion
    let voice_desc :=
      match lookupEntry cfgs.emotions emotion with
      | some entry =>
        entry.tts_description.getD "A calm, thoughtful voice speaks clearly with measured pace"
      | none => "A calm, thoughtful voice speaks clearly with measured pace"
    Except.ok voice_desc

/-- A fused emotion with high confidence, used as the concrete input showing
the augmenter crash on a null configuration. -/
noncomputable def fusedHigh : FusedEmotion :=
  ⟨"anger", 0.9, none, [], 0, "speech_dominant"⟩

/-- C7: the fallback to the built-in default table happens only when the
file is missing or reading/parsing raises; a file that parses to `None`
(for example an empty file) is stored verbatim and then every call to
`augment_system_prompt` or `get_voice_description` raises `AttributeError`
instead of behaving as if no configuration were present.  The defaults do
cover anger, sadness, fear, joy and neutral. -/
theorem augmenter_null_config_raises :
    load_emotion_config (ConfigLoadOutcome.parsed none) = none ∧
    augment_system_prompt (load_emotion_config (ConfigLoadOutcome.parsed none))
      "base" fusedHigh = Except.error "AttributeError" ∧
    get_voice_description (load_emotion_config (ConfigLoadOutcome.parsed none))
      fusedHigh = Except.error "AttributeError" ∧
    load_emotion_config ConfigLoadOutcome.fileNotFound = some default_configs ∧
    load_emotion_config ConfigLoadOutcome.raised = some default_configs ∧
    (["anger", "sadness", "fear", "joy", "neutral"].all
      (fun e => (lookupEntry default_configs.emotions e).isSome)) = true :=
  ⟨rfl, rfl, rfl, rfl, rfl, by decide⟩

/-- Specification-side reading of the augmentation contract: identity below
the 0.5 confidence threshold, identity when the primary emotion is absent
from the table or its addition strips to the empty string, and otherwise the
base prompt followed by the delimited EMOTION CONTEXT block. -/
def augmentSpec (cfgs : EmotionConfigs) (base_prompt : String) (f : FusedEmotion) : String :=
  if f.confidence < 0.5 then base_prompt
  else
    match lookupEntry cfgs.emotions f.primary_emotion with
    | none => base_prompt
    | some entry =>
      let addition := entry.prompt_addition.getD ""
      if pyStrip addition = "" then base_prompt
      else base_prompt ++ "\n\n---\n\nEMOTION CONTEXT:\n" ++ addition ++ "\n\n---\n"

theorem str_length_zero (x : String) (h : x.length = 0) : x = "" := by
  cases x with
  | mk data =>
    simp [String.length] at h
    simp [h]

theorem empty_or_strip (s : String) :
    (s = "" ∨ (pyStrip s).length = 0) ↔ pyStrip s = "" := by
  constructor
  · rintro (rfl | h)
    · rfl
    · exact str_length_zero _ h
  · intro h
    right
    rw [h]
    rfl

/-- C8: with any well-formed configuration table, `augment_system_prompt`
returns the base prompt unchanged when the fused confidence is strictly
below 0.5, or when the primary emotion is absent from the table or its
`prompt_addition` strips to nothing; otherwise it appends the delimited
EMOTION CONTEXT block after the base prompt — and it never fails. -/
theorem augment_system_prompt_spec (cfgs : EmotionConfigs) (base_prompt : String)
    (f : FusedEmotion) :
    augment_system_prompt (some cfgs) base_prompt f
      = Except.ok (augmentSpec cfgs base_prompt f) := by
  simp only [augment_system_prompt, augmentSpec]
  by_cases hc : f.confidence < 0.5
  · rw [if_pos hc, if_pos hc]
  · rw [if_neg hc, if_neg hc]
    cases hent : lookupEntry cfgs.emotions f.primary_emotion with
    | none => simp [empty_or_strip]
    | some entry =>
      simp only []
      by_cases hadd : pyStrip (entry.prompt_addition.getD "") = ""
      · rw [if_pos ((empty_or_strip _).mpr hadd), if_pos hadd]
      · rw [if_neg (fun hor => hadd ((empty_or_strip _).mp hor)), if_neg hadd]

end Mentor
